import Mathlib

/-! Submission workflow of `src/src/App.js`.

A shallow embedding of the `App` component's behaviour: the four `useState`
cells, the event handlers `handleSubmit` and `handleClear`, the `onChange`
handler of the text area and the `disabled` conditions of the two buttons.

A handler is embedded as the list of effects it performs, in program order:
calls of the four state setters and the `fetch` call. `handleSubmit` is an
`async` function; it is split at its `await` into the part that runs when the
handler is invoked (`handleSubmitBegin`, lines 11-25) and the part that runs
once the request has settled (`handleSubmitSettle`, lines 27-38).
-/

namespace App

/-! ## Data model -/

/-- The four `useState` cells of `App` (lines 5-8). `output` is the only cell
that can receive a value that is not a string: `setOutput(data.result)` stores
`undefined` when the payload has no `result` field; `none` stands for
`undefined`. -/
structure State where
  inputText : String
  output : Option String
  isLoading : Bool
  error : String
  deriving DecidableEq, Repr

/-- The values passed to `useState` (lines 5-8). -/
def initialState : State :=
  { inputText := "", output := some "", isLoading := false, error := "" }

/-- The object serialised by `JSON.stringify({ text: inputText })` (line 24).
The serialisation itself is left abstract: the payload is kept as the object. -/
structure RequestPayload where
  text : String
  deriving DecidableEq, Repr

/-- The arguments of the `fetch` call (lines 21-25). -/
structure Request where
  url : String
  method : String
  headers : List (String × String)
  body : RequestPayload
  deriving DecidableEq, Repr

/-- What `await response.json()` (line 27) can yield. `unparseable`: the
promise rejects. `null`: the body is the JSON value `null`, on which reading a
property throws. `object result error`: any other JSON value, seen through the
two properties the handler reads; a property is `none` when it is absent
(`undefined`), and holds a string otherwise (the endpoint contract: both
fields hold text). -/
inductive Body where
  | unparseable
  | null
  | object (result : Option String) (error : Option String)
  deriving DecidableEq, Repr

/-- How the request of line 21 settles: `fetch` rejects, or it resolves with a
response whose `ok` flag classifies the status. -/
inductive Outcome where
  | rejected
  | response (ok : Bool) (body : Body)
  deriving DecidableEq, Repr

/-- The effects a handler performs. -/
inductive Effect where
  | setInputText (v : String)
  | setOutput (v : Option String)
  | setIsLoading (v : Bool)
  | setError (v : String)
  | fetch (req : Request)
  deriving DecidableEq, Repr

/-! ## JavaScript primitives used by the handlers -/

/-- Code points removed by `String.prototype.trim`: ECMAScript `WhiteSpace`
(TAB, VT, FF, SP, NBSP, ZWNBSP and the category Zs) and `LineTerminator`
(LF, CR, LS, PS). -/
def isWhiteSpace (c : Char) : Bool :=
  let n := c.toNat
  n == 9 || n == 10 || n == 11 || n == 12 || n == 13 || n == 32 || n == 160 ||
  n == 5760 || (8192 ≤ n && n ≤ 8202) || n == 8232 || n == 8233 || n == 8239 ||
  n == 8287 || n == 12288 || n == 65279

/-- Removal of leading and trailing white space from a list of characters. -/
def trimChars (cs : List Char) : List Char :=
  ((cs.dropWhile isWhiteSpace).reverse.dropWhile isWhiteSpace).reverse

/-- The method `String.prototype.trim`. -/
def trim (s : String) : String :=
  ⟨trimChars s.data⟩

/-- Truthiness of a string: only the empty string is falsy. -/
def truthy (s : String) : Bool :=
  !(s == "")

/-- Truthiness of a value that is a string or `undefined`. -/
def truthyOpt : Option String → Bool
  | none => false
  | some s => truthy s

/-- The operator `a || b` where `a` is a string or `undefined` and `b` a string. -/
def jsOr (a : Option String) (b : String) : String :=
  match a with
  | some s => if truthy s then s else b
  | none => b

/-- A string made of white space only (the empty string included). -/
def whitespaceOnly (s : String) : Bool :=
  s.data.all isWhiteSpace

/-! ## The handlers -/

/-- The message of line 12. -/
def validationMessage : String := "Please enter some text to process"

/-- The fallback message of line 32. -/
def fallbackMessage : String := "An error occurred while processing"

/-- The message of line 35. -/
def connectMessage : String := "Failed to connect to the server. Please try again later."

/-- The address requested (line 21): `process.env.REACT_APP_API_URL ||
"http://localhost:5000/process"`; `env` is the value of the variable. -/
def apiUrl (env : Option String) : String :=
  jsOr env "http://localhost:5000/process"

/-- The request built at lines 21-25 from the input text of the current render. -/
def mkRequest (env : Option String) (inputText : String) : Request :=
  { url := apiUrl env
    method := "POST"
    headers := [("Content-Type", "application/json")]
    body := { text := inputText } }

/-- Lines 11-25 of `handleSubmit`: everything up to the first `await`. The
handler reads `inputText` only. -/
def handleSubmitBegin (env : Option String) (inputText : String) : List Effect :=
  if !truthy (trim inputText) then
    [Effect.setError validationMessage]
  else
    [Effect.setIsLoading true, Effect.setError "", Effect.setOutput (some ""),
     Effect.fetch (mkRequest env inputText)]

/-- Lines 27-33, the rest of the `try` block: `none` when an exception is
thrown (the `fetch` promise rejected, `response.json()` rejected, or a
property of `null` was read). -/
def tryBlock : Outcome → Option (List Effect)
  | Outcome.rejected => none
  | Outcome.response _ Body.unparseable => none
  | Outcome.response _ Body.null => none
  | Outcome.response ok (Body.object result error) =>
    if ok then some [Effect.setOutput result]
    else some [Effect.setError (jsOr error fallbackMessage)]

/-- The `error` field of a response body, when the body was parsed and has
one: the body `null` and a body that cannot be parsed have none. -/
def errorField : Body → Option String
  | Body.unparseable => none
  | Body.null => none
  | Body.object _ error => error

/-- Lines 27-38 of `handleSubmit`: the `try` block after the request settled,
the `catch` clause and the `finally` clause. -/
def handleSubmitSettle (o : Outcome) : List Effect :=
  (match tryBlock o with
   | some effects => effects
   | none => [Effect.setError connectMessage]) ++ [Effect.setIsLoading false]

/-- The handler `handleClear` (lines 41-45). -/
def handleClear : List Effect :=
  [Effect.setInputText "", Effect.setOutput (some ""), Effect.setError ""]

/-- The `onChange` handler of the text area (line 71). -/
def onChange (value : String) : List Effect :=
  [Effect.setInputText value]

/-- The `disabled` attribute of the submit button (line 78). -/
def submitDisabled (s : State) : Bool :=
  s.isLoading || !truthy (trim s.inputText)

/-- The `disabled` attribute of the clear button (line 96). -/
def clearDisabled (s : State) : Bool :=
  s.isLoading

/-! ## Running effects -/

/-- The effect of one setter call on the state; `fetch` leaves it unchanged. -/
def applyEffect (s : State) : Effect → State
  | Effect.setInputText v => { s with inputText := v }
  | Effect.setOutput v => { s with output := v }
  | Effect.setIsLoading v => { s with isLoading := v }
  | Effect.setError v => { s with error := v }
  | Effect.fetch _ => s

/-- The state after a list of effects. -/
def runEffects (s : State) (effects : List Effect) : State :=
  effects.foldl applyEffect s

/-- The network calls among a list of effects. -/
def requests : List Effect → List Request
  | [] => []
  | Effect.fetch req :: rest => req :: requests rest
  | _ :: rest => requests rest

/-- The calls of `setIsLoading` among a list of effects. -/
def loadingWrites : List Effect → List Bool
  | [] => []
  | Effect.setIsLoading v :: rest => v :: loadingWrites rest
  | _ :: rest => loadingWrites rest

/-- One whole invocation of `handleSubmit`, run to its end with no other event
in between: the effects before the `await`, then, for the request issued (if
any), the effects after it settled as `net` says. -/
def handleSubmitEffects (env : Option String) (net : Request → Outcome) (s : State) :
    List Effect :=
  let before := handleSubmitBegin env s.inputText
  before ++ (requests before).flatMap (fun req => handleSubmitSettle (net req))

/-- The state after one whole invocation of `handleSubmit`. -/
def handleSubmit (env : Option String) (net : Request → Outcome) (s : State) : State :=
  runEffects s (handleSubmitEffects env net s)

/-! ## The component as a transition system -/

/-- The component together with the requests that are in flight. -/
structure Sys where
  ui : State
  pending : List Request
  deriving DecidableEq, Repr

/-- The component after its first render, no request in flight. -/
def initialSys : Sys :=
  { ui := initialState, pending := [] }

/-- The events of the component: a change of the text area, an invocation of
`handleSubmit`, the settling of the in-flight request number `k` with outcome
`o` (which resumes `handleSubmit` after its `await`), an invocation of
`handleClear`. -/
inductive Op where
  | edit (value : String)
  | submit
  | settle (k : Nat) (o : Outcome)
  | clear
  deriving DecidableEq, Repr

/-- Performs a list of effects: the setters update the state, each `fetch`
adds a request in flight. -/
def dispatch (sys : Sys) (effects : List Effect) : Sys :=
  { ui := runEffects sys.ui effects, pending := sys.pending ++ requests effects }

/-- The component after one event. -/
def exec (env : Option String) (sys : Sys) : Op → Sys
  | Op.edit value => dispatch sys (onChange value)
  | Op.submit => dispatch sys (handleSubmitBegin env sys.ui.inputText)
  | Op.settle k o =>
    dispatch { sys with pending := sys.pending.eraseIdx k } (handleSubmitSettle o)
  | Op.clear => dispatch sys handleClear

/-- Events as the handlers allow them when invoked directly: the text can be
edited and `handleClear` invoked at any time, `handleSubmit` is invoked from a
state that is not loading (with any input, valid or not), and a request can
settle when it is in flight. -/
def directGuard (sys : Sys) : Op → Bool
  | Op.edit _ => true
  | Op.submit => !sys.ui.isLoading
  | Op.settle k _ => decide (k < sys.pending.length)
  | Op.clear => true

/-- As `directGuard`, but a submission whose input fails validation is made
only from a state whose output is empty. -/
def emptyOutputGuard (sys : Sys) : Op → Bool
  | Op.edit _ => true
  | Op.submit =>
    !sys.ui.isLoading && (truthy (trim sys.ui.inputText) || !truthyOpt sys.ui.output)
  | Op.settle k _ => decide (k < sys.pending.length)
  | Op.clear => true

/-- Events as the rendered page allows them: the buttons invoke their handlers
only when not `disabled` (lines 78 and 96), the text area is always editable. -/
def uiGuard (sys : Sys) : Op → Bool
  | Op.edit _ => true
  | Op.submit => !submitDisabled sys.ui
  | Op.settle k _ => decide (k < sys.pending.length)
  | Op.clear => !clearDisabled sys.ui

/-- One event, if the guard allows it. -/
def step (guard : Sys → Op → Bool) (env : Option String) (sys : Sys) (op : Op) :
    Option Sys :=
  if guard sys op then some (exec env sys op) else none

/-- A sequence of events, each allowed by the guard where it occurs. -/
def runOps (guard : Sys → Op → Bool) (env : Option String) : Sys → List Op → Option Sys
  | sys, [] => some sys
  | sys, op :: ops =>
    match step guard env sys op with
    | some next => runOps guard env next ops
    | none => none

/-- How many of the three conditions hold: `output` non-empty, `error`
non-empty, `isLoading` true. -/
def holdsCount (s : State) : Nat :=
  (if truthyOpt s.output then 1 else 0) + (if truthy s.error then 1 else 0) +
    (if s.isLoading then 1 else 0)

/-- The invariant of the transition system: either nothing is in flight, the
component is not loading and `output` and `error` are not both non-empty, or
exactly one request is in flight, the component is loading and `output` and
`error` are both empty. -/
def Inv (sys : Sys) : Prop :=
  (sys.ui.isLoading = false ∧ sys.pending = [] ∧
      (truthyOpt sys.ui.output = false ∨ truthy sys.ui.error = false)) ∨
  (sys.ui.isLoading = true ∧ sys.pending.length = 1 ∧
      truthyOpt sys.ui.output = false ∧ truthy sys.ui.error = false)

/-! ## Lemmas on `trim` and validation -/

theorem dropWhile_eq_nil_of_all (p : Char → Bool) (cs : List Char)
    (h : ∀ c ∈ cs.dropWhile p, p c = true) : cs.dropWhile p = [] := by
  induction cs with
  | nil => rfl
  | cons a t ih =>
    by_cases ha : p a = true
    · simp only [List.dropWhile_cons, ha, if_true] at h ⊢
      exact ih h
    · exfalso
      apply ha
      apply h
      simp [List.dropWhile_cons, ha]

theorem trimChars_eq_nil_iff (cs : List Char) :
    trimChars cs = [] ↔ ∀ c ∈ cs, isWhiteSpace c = true := by
  unfold trimChars
  rw [List.reverse_eq_nil_iff, List.dropWhile_eq_nil_iff]
  constructor
  · intro h
    have h1 : cs.dropWhile isWhiteSpace = [] :=
      dropWhile_eq_nil_of_all isWhiteSpace cs (fun c hc => h c (List.mem_reverse.mpr hc))
    exact List.dropWhile_eq_nil_iff.mp h1
  · intro h c hc
    have h1 : cs.dropWhile isWhiteSpace = [] := List.dropWhile_eq_nil_iff.mpr h
    rw [h1] at hc
    simp at hc

/-- The validation test of line 11 fails exactly on the inputs made of white
space only. -/
theorem truthy_trim_eq_false_iff (s : String) :
    truthy (trim s) = false ↔ whitespaceOnly s = true := by
  have h1 : truthy (trim s) = false ↔ trimChars s.data = [] := by
    unfold truthy trim
    simp [String.ext_iff]
  rw [h1, trimChars_eq_nil_iff]
  unfold whitespaceOnly
  simp [List.all_eq_true]

theorem truthy_trim_of_not_whitespaceOnly (s : String) (h : whitespaceOnly s = false) :
    truthy (trim s) = true := by
  cases ht : truthy (trim s) with
  | true => rfl
  | false =>
    rw [(truthy_trim_eq_false_iff s).mp ht] at h
    cases h

theorem handleSubmitBegin_invalid (env : Option String) (inputText : String)
    (h : whitespaceOnly inputText = true) :
    handleSubmitBegin env inputText = [Effect.setError validationMessage] := by
  unfold handleSubmitBegin
  rw [(truthy_trim_eq_false_iff inputText).mpr h]
  rfl

theorem handleSubmitBegin_valid (env : Option String) (inputText : String)
    (h : truthy (trim inputText) = true) :
    handleSubmitBegin env inputText =
      [Effect.setIsLoading true, Effect.setError "", Effect.setOutput (some ""),
       Effect.fetch (mkRequest env inputText)] := by
  unfold handleSubmitBegin
  rw [h]
  rfl

/-- The effects of a whole submission of an input that passes validation. -/
theorem handleSubmitEffects_valid (env : Option String) (net : Request → Outcome)
    (s : State) (h : truthy (trim s.inputText) = true) :
    handleSubmitEffects env net s =
      [Effect.setIsLoading true, Effect.setError "", Effect.setOutput (some ""),
       Effect.fetch (mkRequest env s.inputText)] ++
        handleSubmitSettle (net (mkRequest env s.inputText)) := by
  unfold handleSubmitEffects
  rw [handleSubmitBegin_valid env s.inputText h]
  simp [requests, List.flatMap]

/-! ## The invariant of the transition system -/

theorem holdsCount_le_one_of_inv (sys : Sys) (h : Inv sys) : holdsCount sys.ui ≤ 1 := by
  unfold holdsCount
  rcases h with ⟨hl, _, ho | he⟩ | ⟨hl, _, ho, he⟩
  · simp [hl, ho]
    split <;> simp
  · simp [hl, he]
    split <;> simp
  · simp [hl, ho, he]

theorem inv_initialSys : Inv initialSys := by
  left
  refine ⟨rfl, rfl, ?_⟩
  left
  rfl

theorem emptyOutputGuard_of_uiGuard (sys : Sys) (op : Op) (h : uiGuard sys op = true) :
    emptyOutputGuard sys op = true := by
  cases op with
  | edit v => rfl
  | submit =>
    simp only [uiGuard, submitDisabled, Bool.not_or, Bool.not_not, Bool.and_eq_true] at h
    simp only [emptyOutputGuard, Bool.and_eq_true, Bool.or_eq_true]
    exact ⟨h.1, Or.inl h.2⟩
  | settle k o => exact h
  | clear => rfl

/-- Every event that `emptyOutputGuard` allows preserves the invariant. -/
theorem inv_exec (env : Option String) (sys : Sys) (op : Op) (h : Inv sys)
    (hg : emptyOutputGuard sys op = true) : Inv (exec env sys op) := by
  cases op with
  | edit v =>
    simpa [exec, dispatch, onChange, runEffects, applyEffect, requests, Inv] using h
  | clear =>
    rcases h with ⟨hl, hp, _⟩ | ⟨hl, hp, _, _⟩
    · left
      simp [exec, dispatch, handleClear, runEffects, applyEffect, requests, hl, hp,
        truthyOpt, truthy]
    · right
      simp [exec, dispatch, handleClear, runEffects, applyEffect, requests, hl, hp,
        truthyOpt, truthy]
  | submit =>
    simp only [emptyOutputGuard, Bool.and_eq_true, Bool.or_eq_true, Bool.not_eq_true,
      Bool.not_eq_eq_eq_not, Bool.not_true] at hg
    obtain ⟨hl, hv⟩ := hg
    rcases h with ⟨_, hp, hoe⟩ | ⟨hl2, _, _, _⟩
    · cases ht : truthy (trim sys.ui.inputText) with
      | true =>
        right
        simp only [exec, handleSubmitBegin_valid env sys.ui.inputText ht]
        simp [dispatch, runEffects, applyEffect, requests, hp, truthyOpt, truthy]
      | false =>
        have ho : truthyOpt sys.ui.output = false := by
          rcases hv with hv | hv
          · rw [ht] at hv
            cases hv
          · exact hv
        left
        simp only [exec, handleSubmitBegin_invalid env sys.ui.inputText
          ((truthy_trim_eq_false_iff sys.ui.inputText).mp ht)]
        simp [dispatch, runEffects, applyEffect, requests, hp, hl, ho]
    · rw [hl2] at hl
      cases hl
  | settle k o =>
    simp only [emptyOutputGuard, decide_eq_true_eq] at hg
    rcases h with ⟨_, hp, _⟩ | ⟨_, hp, ho, he⟩
    · rw [hp] at hg
      simp at hg
    · have hk : k = 0 := by omega
      subst hk
      have hnil : sys.pending.eraseIdx 0 = [] := by
        cases hq : sys.pending with
        | nil => rfl
        | cons a t =>
          rw [hq] at hp
          simp at hp
          simp [hp]
      left
      rcases o with _ | ⟨ok, body⟩
      · simp [exec, dispatch, handleSubmitSettle, tryBlock, runEffects, applyEffect,
          requests, hnil, ho]
      · rcases body with _ | _ | ⟨r, e⟩
        · simp [exec, dispatch, handleSubmitSettle, tryBlock, runEffects, applyEffect,
            requests, hnil, ho]
        · simp [exec, dispatch, handleSubmitSettle, tryBlock, runEffects, applyEffect,
            requests, hnil, ho]
        · cases ok
          · simp [exec, dispatch, handleSubmitSettle, tryBlock, runEffects, applyEffect,
              requests, hnil, ho]
          · simp [exec, dispatch, handleSubmitSettle, tryBlock, runEffects, applyEffect,
              requests, hnil, he]

/-- The invariant holds after every sequence of events allowed by a guard that
is at least as strict as `emptyOutputGuard`. -/
theorem inv_runOps (guard : Sys → Op → Bool) (env : Option String)
    (hguard : ∀ sys op, guard sys op = true → emptyOutputGuard sys op = true) :
    ∀ (ops : List Op) (sys t : Sys), Inv sys → runOps guard env sys ops = some t → Inv t := by
  intro ops
  induction ops with
  | nil =>
    intro sys t h hr
    simp only [runOps, Option.some.injEq] at hr
    rw [← hr]
    exact h
  | cons op ops ih =>
    intro sys t h hr
    simp only [runOps, step] at hr
    cases hgo : guard sys op with
    | false => simp [hgo] at hr
    | true =>
      simp only [hgo, if_true] at hr
      exact ih (exec env sys op) t (inv_exec env sys op h (hguard sys op hgo)) hr

/-! ## The claims -/

/-- C1, as stated, fails: after a successful submission of "notes", the input
is emptied and `handleSubmit` is invoked again; validation fails, line 12 sets
`error` and line 13 returns without clearing `output`, so `output` and `error`
are both non-empty. -/
theorem C1_counterexample :
    runOps directGuard none initialSys
        [Op.edit "notes", Op.submit,
         Op.settle 0 (Outcome.response true (Body.object (some "Summary") none)),
         Op.edit "", Op.submit] =
      some { ui := { inputText := "", output := some "Summary", isLoading := false,
                     error := "Please enter some text to process" },
             pending := [] } ∧
    holdsCount { inputText := "", output := some "Summary", isLoading := false,
                 error := "Please enter some text to process" } = 2 := by
  decide

/-- C1, amended: in every state reachable from the initial state by input
edits, `handleClear`, submissions made from a state that is not loading (a
submission whose input fails validation only from a state whose output is
empty) and the settling of the request in flight, at most one of `output`
non-empty, `error` non-empty, `isLoading` true holds. -/
theorem C1_at_most_one_of_three (env : Option String) (ops : List Op) (sys : Sys)
    (h : runOps emptyOutputGuard env initialSys ops = some sys) : holdsCount sys.ui ≤ 1 :=
  holdsCount_le_one_of_inv sys
    (inv_runOps emptyOutputGuard env (fun _ _ hg => hg) ops initialSys sys inv_initialSys h)

theorem C1_at_most_one_of_three_witness :
    runOps emptyOutputGuard none initialSys
        [Op.edit "notes", Op.submit,
         Op.settle 0 (Outcome.response true (Body.object (some "Summary") none)),
         Op.clear, Op.edit " ", Op.submit] =
      some { ui := { inputText := " ", output := some "", isLoading := false,
                     error := "Please enter some text to process" },
             pending := [] } ∧
    holdsCount { inputText := " ", output := some "", isLoading := false,
                 error := "Please enter some text to process" } ≤ 1 :=
  ⟨by decide,
   C1_at_most_one_of_three none
     [Op.edit "notes", Op.submit,
      Op.settle 0 (Outcome.response true (Body.object (some "Summary") none)),
      Op.clear, Op.edit " ", Op.submit]
     { ui := { inputText := " ", output := some "", isLoading := false,
               error := "Please enter some text to process" },
       pending := [] }
     (by decide)⟩

/-- C2: when the input text is empty or made of white space only, then from
every prior state `handleSubmit` performs one effect only, setting `error` to
"Please enter some text to process"; it issues no network call and does not
call `setIsLoading`. -/
theorem C2_blank_input_rejected (env : Option String) (net : Request → Outcome) (s : State)
    (h : whitespaceOnly s.inputText = true) :
    handleSubmitEffects env net s = [Effect.setError "Please enter some text to process"] ∧
    handleSubmit env net s = { s with error := "Please enter some text to process" } ∧
    requests (handleSubmitEffects env net s) = [] ∧
    loadingWrites (handleSubmitEffects env net s) = [] := by
  have he : handleSubmitEffects env net s =
      [Effect.setError "Please enter some text to process"] := by
    unfold handleSubmitEffects
    rw [handleSubmitBegin_invalid env s.inputText h]
    rfl
  refine ⟨he, ?_, ?_, ?_⟩
  · rw [handleSubmit, he]
    rfl
  · rw [he]
    rfl
  · rw [he]
    rfl

theorem C2_blank_input_rejected_witness :
    whitespaceOnly (" \n\t" : String) = true ∧
    handleSubmit none (fun _ => Outcome.rejected)
        { inputText := " \n\t", output := some "Summary", isLoading := false, error := "" } =
      { inputText := " \n\t", output := some "Summary", isLoading := false,
        error := "Please enter some text to process" } :=
  ⟨by decide,
   (C2_blank_input_rejected none (fun _ => Outcome.rejected)
      { inputText := " \n\t", output := some "Summary", isLoading := false, error := "" }
      (by decide)).2.1⟩

/-- C3, as stated, fails for the empty message: on a failure response with
payload `{error: ""}` the operator `||` of line 32 takes the fallback, and
`error` is not the message of the payload. -/
theorem C3_counterexample :
    (handleSubmit none (fun _ => Outcome.response false (Body.object none (some "")))
        { inputText := "text", output := some "", isLoading := false, error := "" }).error =
      "An error occurred while processing" ∧
    (handleSubmit none (fun _ => Outcome.response false (Body.object none (some "")))
        { inputText := "text", output := some "", isLoading := false, error := "" }).error ≠
      "" := by
  decide

/-- C3, amended: for an input that passes validation and a failure response
whose payload is `{error: E}` with `E` a non-empty message, after the
submission `error` equals `E`, `output` is the empty string and `isLoading` is
false. -/
theorem C3_service_error_message (env : Option String) (net : Request → Outcome) (s : State)
    (E : String) (r : Option String) (hv : whitespaceOnly s.inputText = false)
    (hn : net (mkRequest env s.inputText) = Outcome.response false (Body.object r (some E)))
    (hE : E ≠ "") :
    handleSubmit env net s =
      { inputText := s.inputText, output := some "", isLoading := false, error := E } := by
  rw [handleSubmit, handleSubmitEffects_valid env net s
    (truthy_trim_of_not_whitespaceOnly s.inputText hv), hn]
  simp [handleSubmitSettle, tryBlock, runEffects, applyEffect, jsOr, truthy, hE]

theorem C3_service_error_message_witness :
    handleSubmit none (fun _ => Outcome.response false (Body.object none (some "Quota exceeded")))
        { inputText := "text", output := some "old", isLoading := false, error := "older" } =
      { inputText := "text", output := some "", isLoading := false,
        error := "Quota exceeded" } :=
  C3_service_error_message none
    (fun _ => Outcome.response false (Body.object none (some "Quota exceeded")))
    { inputText := "text", output := some "old", isLoading := false, error := "older" }
    "Quota exceeded" none (by decide) rfl (by decide)

/-- C4, as stated, fails: the input " " is not empty, yet line 11 trims it and
`handleSubmit` returns without a network call. -/
theorem C4_counterexample :
    (" " : String) ≠ "" ∧
    requests (handleSubmitEffects none
        (fun _ => Outcome.response true (Body.object (some "Summary") none))
        { inputText := " ", output := some "", isLoading := false, error := "" }) = [] := by
  decide

/-- C4, amended: for every input text that is not made of white space only
(not empty after trimming), `handleSubmit` issues exactly one network call, a
POST whose payload has the untrimmed input text as its `text` field. -/
theorem C4_one_post_with_raw_text (env : Option String) (net : Request → Outcome) (s : State)
    (hv : whitespaceOnly s.inputText = false) :
    requests (handleSubmitEffects env net s) =
      [{ url := apiUrl env, method := "POST",
         headers := [("Content-Type", "application/json")],
         body := { text := s.inputText } }] := by
  rw [handleSubmitEffects_valid env net s (truthy_trim_of_not_whitespaceOnly s.inputText hv)]
  rcases net (mkRequest env s.inputText) with _ | ⟨ok, body⟩
  · simp [handleSubmitSettle, tryBlock, requests, mkRequest]
  · rcases body with _ | _ | ⟨r, e⟩
    · simp [handleSubmitSettle, tryBlock, requests, mkRequest]
    · simp [handleSubmitSettle, tryBlock, requests, mkRequest]
    · cases ok <;> simp [handleSubmitSettle, tryBlock, requests, mkRequest]

theorem C4_one_post_with_raw_text_witness :
    requests (handleSubmitEffects none (fun _ => Outcome.rejected)
        { inputText := " a ", output := some "", isLoading := false, error := "" }) =
      [{ url := "http://localhost:5000/process", method := "POST",
         headers := [("Content-Type", "application/json")],
         body := { text := " a " } }] :=
  C4_one_post_with_raw_text none (fun _ => Outcome.rejected)
    { inputText := " a ", output := some "", isLoading := false, error := "" } (by decide)

/-- C5: for an input that passes validation and a successful response with
payload `{result: S}`, after the submission `output` equals `S`, `error` is
the empty string and `isLoading` is false, whatever `output` and `error` held
before. -/
theorem C5_success_sets_output (env : Option String) (net : Request → Outcome) (s : State)
    (S : String) (e : Option String) (hv : whitespaceOnly s.inputText = false)
    (hn : net (mkRequest env s.inputText) = Outcome.response true (Body.object (some S) e)) :
    handleSubmit env net s =
      { inputText := s.inputText, output := some S, isLoading := false, error := "" } := by
  rw [handleSubmit, handleSubmitEffects_valid env net s
    (truthy_trim_of_not_whitespaceOnly s.inputText hv), hn]
  simp [handleSubmitSettle, tryBlock, runEffects, applyEffect]

theorem C5_success_sets_output_witness :
    handleSubmit none (fun _ => Outcome.response true (Body.object (some "Summary: ...") none))
        { inputText := "Photosynthesis notes", output := some "old", isLoading := false,
          error := "older" } =
      { inputText := "Photosynthesis notes", output := some "Summary: ...",
        isLoading := false, error := "" } :=
  C5_success_sets_output none
    (fun _ => Outcome.response true (Body.object (some "Summary: ...") none))
    { inputText := "Photosynthesis notes", output := some "old", isLoading := false,
      error := "older" }
    "Summary: ..." none (by decide) rfl

/-- C6: for an input that passes validation, when the request rejects or the
response body cannot be parsed (whatever the status of the response), after
the submission `error` equals "Failed to connect to the server. Please try
again later.", `output` is the empty string and `isLoading` is false. -/
theorem C6_transport_failure (env : Option String) (net : Request → Outcome) (s : State)
    (hv : whitespaceOnly s.inputText = false)
    (hn : net (mkRequest env s.inputText) = Outcome.rejected ∨
      ∃ ok, net (mkRequest env s.inputText) = Outcome.response ok Body.unparseable) :
    handleSubmit env net s =
      { inputText := s.inputText, output := some "", isLoading := false,
        error := "Failed to connect to the server. Please try again later." } := by
  rw [handleSubmit, handleSubmitEffects_valid env net s
    (truthy_trim_of_not_whitespaceOnly s.inputText hv)]
  rcases hn with hn | ⟨ok, hn⟩
  · rw [hn]
    simp [handleSubmitSettle, tryBlock, runEffects, applyEffect, connectMessage]
  · rw [hn]
    simp [handleSubmitSettle, tryBlock, runEffects, applyEffect, connectMessage]

theorem C6_transport_failure_witness :
    handleSubmit none (fun _ => Outcome.response true Body.unparseable)
        { inputText := "text", output := some "old", isLoading := false, error := "" } =
      { inputText := "text", output := some "", isLoading := false,
        error := "Failed to connect to the server. Please try again later." } :=
  C6_transport_failure none (fun _ => Outcome.response true Body.unparseable)
    { inputText := "text", output := some "old", isLoading := false, error := "" }
    (by decide) (Or.inr ⟨true, rfl⟩)

/-- C7: for an input that passes validation, `isLoading` is false after the
submission whatever the outcome of the request; and whenever a request in
flight settles, with any outcome and from any state, `isLoading` is false
afterwards. -/
theorem C7_loading_always_reset (env : Option String) (net : Request → Outcome) (s : State)
    (hv : whitespaceOnly s.inputText = false) :
    (handleSubmit env net s).isLoading = false ∧
    ∀ (sys : Sys) (k : Nat) (o : Outcome), (exec env sys (Op.settle k o)).ui.isLoading = false := by
  have hsettle : ∀ (t : State) (o : Outcome),
      (runEffects t (handleSubmitSettle o)).isLoading = false := by
    intro t o
    rcases o with _ | ⟨ok, body⟩
    · simp [handleSubmitSettle, tryBlock, runEffects, applyEffect]
    · rcases body with _ | _ | ⟨r, e⟩
      · simp [handleSubmitSettle, tryBlock, runEffects, applyEffect]
      · simp [handleSubmitSettle, tryBlock, runEffects, applyEffect]
      · cases ok <;> simp [handleSubmitSettle, tryBlock, runEffects, applyEffect]
  constructor
  · rw [handleSubmit, handleSubmitEffects_valid env net s
      (truthy_trim_of_not_whitespaceOnly s.inputText hv)]
    unfold runEffects
    rw [List.foldl_append]
    exact hsettle _ _
  · intro sys k o
    exact hsettle _ o

theorem C7_loading_always_reset_witness :
    (handleSubmit none (fun _ => Outcome.response true Body.null)
        { inputText := "text", output := some "", isLoading := false, error := "" }).isLoading =
      false :=
  (C7_loading_always_reset none (fun _ => Outcome.response true Body.null)
    { inputText := "text", output := some "", isLoading := false, error := "" }
    (by decide)).1

/-- C8: from every prior state `handleClear` sets `inputText`, `output` and
`error` to the empty string and leaves `isLoading` unchanged; from a state
that is not loading it yields the initial (Idle) state; and it is idempotent. -/
theorem C8_clear_resets (s : State) :
    runEffects s handleClear =
      { inputText := "", output := some "", isLoading := s.isLoading, error := "" } ∧
    (s.isLoading = false → runEffects s handleClear = initialState) ∧
    runEffects (runEffects s handleClear) handleClear = runEffects s handleClear := by
  refine ⟨rfl, ?_, rfl⟩
  intro h
  simp [runEffects, handleClear, applyEffect, initialState, h]

theorem C8_clear_resets_witness :
    runEffects { inputText := "notes", output := some "Summary", isLoading := false,
                 error := "" } handleClear = initialState :=
  (C8_clear_resets { inputText := "notes", output := some "Summary", isLoading := false,
                     error := "" }).2.1 rfl

/-- C9, as stated, fails for the body `null`: it is parsed by
`response.json()` and has no `error` field, but reading `data.error` at line
32 throws, the `catch` clause of line 35 runs, and `error` is the connectivity
message, not the fallback. -/
theorem C9_counterexample :
    Body.null ≠ Body.unparseable ∧
    errorField Body.null = none ∧
    (handleSubmit none (fun _ => Outcome.response false Body.null)
        { inputText := "text", output := some "", isLoading := false, error := "" }).error =
      "Failed to connect to the server. Please try again later." ∧
    (handleSubmit none (fun _ => Outcome.response false Body.null)
        { inputText := "text", output := some "", isLoading := false, error := "" }).error ≠
      "An error occurred while processing" := by
  decide

/-- C9, amended: for an input that passes validation and a failure response
whose payload is a JSON value other than `null` with no `error` field, after
the submission `error` equals "An error occurred while processing". -/
theorem C9_fallback_message (env : Option String) (net : Request → Outcome) (s : State)
    (r : Option String) (hv : whitespaceOnly s.inputText = false)
    (hn : net (mkRequest env s.inputText) = Outcome.response false (Body.object r none)) :
    (handleSubmit env net s).error = "An error occurred while processing" := by
  rw [handleSubmit, handleSubmitEffects_valid env net s
    (truthy_trim_of_not_whitespaceOnly s.inputText hv), hn]
  simp [handleSubmitSettle, tryBlock, runEffects, applyEffect, jsOr, fallbackMessage]

theorem C9_fallback_message_witness :
    (handleSubmit none (fun _ => Outcome.response false (Body.object none none))
        { inputText := "text", output := some "", isLoading := false, error := "" }).error =
      "An error occurred while processing" :=
  C9_fallback_message none (fun _ => Outcome.response false (Body.object none none))
    { inputText := "text", output := some "", isLoading := false, error := "" }
    none (by decide) rfl

/-- C10: when the buttons invoke their handlers only while not `disabled`
(submit: not loading and trimmed input non-empty; clear: not loading), the
input can be edited at any time and a submission settles in one step, then in
every state reachable from the initial state at most one of `output`
non-empty, `error` non-empty, `isLoading` true holds, and a submission that
can be made there takes the branch that issues the request, not the
validation-failure branch. -/
theorem C10_gated_at_most_one (env : Option String) (ops : List Op) (sys : Sys)
    (h : runOps uiGuard env initialSys ops = some sys) :
    holdsCount sys.ui ≤ 1 ∧
    (uiGuard sys Op.submit = true →
      handleSubmitBegin env sys.ui.inputText =
        [Effect.setIsLoading true, Effect.setError "", Effect.setOutput (some ""),
         Effect.fetch (mkRequest env sys.ui.inputText)]) := by
  constructor
  · exact holdsCount_le_one_of_inv sys
      (inv_runOps uiGuard env emptyOutputGuard_of_uiGuard ops initialSys sys inv_initialSys h)
  · intro hg
    simp only [uiGuard, submitDisabled, Bool.not_or, Bool.not_not, Bool.and_eq_true] at hg
    exact handleSubmitBegin_valid env sys.ui.inputText hg.2

theorem C10_gated_at_most_one_witness :
    runOps uiGuard none initialSys
        [Op.edit "notes", Op.submit, Op.edit "more notes",
         Op.settle 0 (Outcome.response false (Body.object none (some "Quota exceeded")))] =
      some { ui := { inputText := "more notes", output := some "", isLoading := false,
                     error := "Quota exceeded" },
             pending := [] } ∧
    holdsCount { inputText := "more notes", output := some "", isLoading := false,
                 error := "Quota exceeded" } ≤ 1 ∧
    handleSubmitBegin none "more notes" =
      [Effect.setIsLoading true, Effect.setError "", Effect.setOutput (some ""),
       Effect.fetch (mkRequest none "more notes")] :=
  have hc := C10_gated_at_most_one none
    [Op.edit "notes", Op.submit, Op.edit "more notes",
     Op.settle 0 (Outcome.response false (Body.object none (some "Quota exceeded")))]
    { ui := { inputText := "more notes", output := some "", isLoading := false,
              error := "Quota exceeded" },
      pending := [] }
    (by decide)
  ⟨by decide, hc.1, hc.2 (by decide)⟩

end App
